import Mathlib

/-!
# Verification of ngx-signals-plus: bindable signals and event signals

Shallow embedding of the two core modules of the `ngx-signals-plus`
library:

* `bindable-signal.ts` — the `bindable` factory producing a
  `BindableSignal` with `bindTo` / `unbind`;
* `event-signal.ts` — the `signalFromEvent` factory producing an
  `EventSignal` with `attachActivator` / `deactivate`.

Values held by signals are modelled as `Nat`; streams (rxjs
`Observable`s), source signals, and DOM event targets are identified by
`Nat` ids.  The single-threaded, cooperative delivery model of the host
framework is embedded operationally: the caller-facing operations
(`bindTo`, `unbind`, `attachActivator`, `deactivate`) are functions on an
explicit state, returning `Except String _` where the source can throw
(an `Except.error` models a thrown `Error` that leaves the state
unchanged), and the asynchronous deliveries of the environment (stream
emissions, stream completion/error, effect re-evaluations on signal
change, the throttled re-attachment microtask, DOM event dispatch,
destroy-time teardown) are separate total step functions applied in the
order the environment delivers them.
-/

namespace NgxSignalsPlus

namespace Bindable

/-- A stream subscription handle as held in the local `subscription`
variable of `bindable` (bindable-signal.ts): the id of the stream it was
created from and whether the underlying rxjs subscription is closed (the
stream completed or errored, or `takeUntilDestroyed` fired).  Closing
does not clear the local variable; only `unbind` does. -/
structure Sub where
  streamId : Nat
  closed : Bool
deriving Repr, DecidableEq

/-- An `EffectRef` handle as held in the local `effectRef` variable of
`bindable`: the id of the source signal the effect reads, and whether
the effect has been destroyed (by its injector's `DestroyRef`).
Destruction does not clear the local variable; only `unbind` does. -/
structure EffectHandle where
  signalId : Nat
  destroyed : Bool
deriving Repr, DecidableEq

/-- The options record of the `bindable` factory
(bindable-signal.ts): presence of `destroyRef`, presence of `injector`,
and the `manualCleanup` flag.  Only presence matters for control flow,
so the two references are modelled as booleans. -/
structure BindableOptions where
  destroyRef : Bool
  injector : Bool
  manualCleanup : Bool
deriving Repr, DecidableEq

/-- The state of a constructed `BindableSignal`: the current value of the
underlying writable signal, the `bound` flag, the `effectRef` and
`subscription` local variables, the captured local `injector` variable
(defined or `undefined`), and the construction options it closes over. -/
structure Cell where
  value : Nat
  bound : Bool
  effectRef : Option EffectHandle
  subscription : Option Sub
  hasInjector : Bool
  manualCleanup : Bool
  destroyRef : Bool
deriving Repr, DecidableEq

/-- The argument of `bindTo`: `Observable<T> | Signal<T>`, discriminated
in the source by `isSignal(source)`.  Sources are identified by ids;
their emissions are delivered by the environment steps below. -/
inductive Source where
  | stream (sid : Nat)
  | sig (sid : Nat)
deriving Repr, DecidableEq

/-- `assertNoDestroyRefOrInjectorProvidedWithManualCleanup`
(bindable-signal.ts): throws when `manualCleanup` is `true` and a
`destroyRef` or an `injector` was provided. -/
def assertNoDestroyRefOrInjectorProvidedWithManualCleanup
    (options : BindableOptions) : Except String Unit :=
  if options.manualCleanup && (options.destroyRef || options.injector) then
    Except.error "When using manual cleanup, DestroyRef or Injector will not provide automated cleanup."
  else
    Except.ok ()

/-- The `bindable` factory (bindable-signal.ts).  After the manual-cleanup
assertion, the local `injector` is assigned only when neither a
`destroyRef` was provided nor `manualCleanup` is true; in that case it is
the provided injector or, failing that, `inject(Injector)` — which throws
when called outside an injection context (`inInjectionContext = false`).
Providing a `destroyRef` leaves the local `injector` undefined even when
an explicit injector option was passed. -/
def bindable (initialValue : Nat) (options : BindableOptions)
    (inInjectionContext : Bool) : Except String Cell :=
  match assertNoDestroyRefOrInjectorProvidedWithManualCleanup options with
  | Except.error e => Except.error e
  | Except.ok _ =>
    let injectorResult : Except String Bool :=
      if !options.destroyRef && !options.manualCleanup then
        if options.injector then
          Except.ok true
        else if inInjectionContext then
          Except.ok true
        else
          Except.error "inject() must be called from an injection context."
      else
        Except.ok false
    match injectorResult with
    | Except.error e => Except.error e
    | Except.ok hasInjector =>
      Except.ok { value := initialValue, bound := false, effectRef := none,
                  subscription := none, hasInjector := hasInjector,
                  manualCleanup := options.manualCleanup,
                  destroyRef := options.destroyRef }

/-- `bindTo` (bindable-signal.ts).  Throws when `bound` is already true.
For a signal source it throws when the local `injector` is undefined,
otherwise stores a fresh effect handle.  For a stream source the operator
is `pipe()` under `manualCleanup`, otherwise `takeUntilDestroyed` of
`options.destroyRef ?? injector.get(DestroyRef)` — throwing when that is
undefined; in the non-throwing cases a fresh open subscription is stored.
Finally `bound` is set.  (The `assertNotInReactiveContext` guard concerns
the framework's ambient reactive context; all modelled calls are outside
a reactive context.) -/
def bindTo (c : Cell) (source : Source) : Except String Cell :=
  if c.bound then
    Except.error "Signal is already bound to an observable. Call unbind() before binding it again."
  else
    match source with
    | Source.sig sid =>
      if !c.hasInjector then
        Except.error "Tried to bind the signal to a signal without a provided Injector."
      else
        Except.ok { c with effectRef := some { signalId := sid, destroyed := false },
                           bound := true }
    | Source.stream sid =>
      if c.manualCleanup then
        Except.ok { c with subscription := some { streamId := sid, closed := false },
                           bound := true }
      else if c.destroyRef || c.hasInjector then
        Except.ok { c with subscription := some { streamId := sid, closed := false },
                           bound := true }
      else
        Except.error "Providing the DestroyRef or the Injector is required when not using manual cleanup."

/-- `unbind` (bindable-signal.ts): destroys the effect if one is held,
else unsubscribes the subscription if one is held (unsubscribing an
already-closed rxjs subscription is a safe no-op), else throws; on
success the handle variable is cleared and `bound` reset. -/
def unbind (c : Cell) : Except String Cell :=
  match c.effectRef with
  | some _ => Except.ok { c with effectRef := none, bound := false }
  | none =>
    match c.subscription with
    | some _ => Except.ok { c with subscription := none, bound := false }
    | none =>
      Except.error "Unbind was called before the BindableSignal was bound to an Observable or Signal!"

/-- Environment step: stream `sid` emits `v`.  The subscriber callback
`(value) => bindableSignal.set(value)` runs only while the held
subscription is to `sid` and still open. -/
def streamEmit (c : Cell) (sid v : Nat) : Cell :=
  match c.subscription with
  | some s => if s.streamId = sid && !s.closed then { c with value := v } else c
  | none => c

/-- Environment step: stream `sid` completes on its own (e.g. a
`take`/`takeUntil` operator).  The rxjs subscription closes; the local
`subscription` variable keeps holding the closed handle. -/
def streamComplete (c : Cell) (sid : Nat) : Cell :=
  match c.subscription with
  | some s =>
    if s.streamId = sid then { c with subscription := some { s with closed := true } } else c
  | none => c

/-- Environment step: stream `sid` errors.  The subscription terminates
exactly as on completion (the `subscribe` call installs only a `next`
callback); the local `subscription` variable and the `bound` flag are
untouched. -/
def streamError (c : Cell) (sid : Nat) : Cell :=
  match c.subscription with
  | some s =>
    if s.streamId = sid then { c with subscription := some { s with closed := true } } else c
  | none => c

/-- Environment step: the bound source signal `sid` changed to `v` (or
the effect runs for the first time), so the effect
`effect(() => bindableSignal.set(source()))` re-evaluates — unless the
effect has been destroyed. -/
def signalUpdate (c : Cell) (sid v : Nat) : Cell :=
  match c.effectRef with
  | some e => if e.signalId = sid && !e.destroyed then { c with value := v } else c
  | none => c

/-- Environment step: the `DestroyRef` teardown runs.  The effect (if
any) is destroyed with its injector; a stream subscription closes via
`takeUntilDestroyed` unless the cell uses `manualCleanup` (whose operator
is the identity `pipe()`). -/
def destroyTeardown (c : Cell) : Cell :=
  let c1 :=
    match c.effectRef with
    | some e => { c with effectRef := some { e with destroyed := true } }
    | none => c
  match c1.subscription with
  | some s =>
    if !c1.manualCleanup then { c1 with subscription := some { s with closed := true } } else c1
  | none => c1

/-- Well-formedness of a cell state: `bound` holds exactly when one of
the two handle variables is set, and never both at once.  Holds for
every state reachable from `bindable` through the operations above. -/
def wf (c : Cell) : Bool :=
  (c.bound == (c.effectRef.isSome || c.subscription.isSome)) &&
    !(c.effectRef.isSome && c.subscription.isSome)

/-- A sample cell bound to stream `5` with an open subscription, as
produced by `bindTo` on a cell created in an injection context. -/
def cellBoundToStream5 : Cell :=
  { value := 0, bound := true, effectRef := none,
    subscription := some { streamId := 5, closed := false },
    hasInjector := true, manualCleanup := false, destroyRef := false }

/-- A sample freshly constructed, unbound cell created in an injection
context (`bindable 0 {} true`). -/
def cellFresh : Cell :=
  { value := 0, bound := false, effectRef := none, subscription := none,
    hasInjector := true, manualCleanup := false, destroyRef := false }

/-- A sample unbound cell created with an explicit injector outside any
injection context. -/
def cellWithInjector : Cell :=
  { value := 0, bound := false, effectRef := none, subscription := none,
    hasInjector := true, manualCleanup := false, destroyRef := false }

/-- The state of `cellBoundToStream5` after a successful `unbind`. -/
def cellAfterUnbind : Cell :=
  { cellBoundToStream5 with subscription := none, bound := false }

end Bindable

namespace EventSig

/-- The argument of `attachActivator`
(event-signal.ts): `true | Signal<boolean> | Observable<boolean>`.
Reactive-cell and stream activators are identified by ids; their boolean
emissions are delivered by the environment steps below. -/
inductive Activator where
  | literalTrue
  | sig (id : Nat)
  | stream (id : Nat)
deriving Repr, DecidableEq

/-- The state of a constructed `EventSignal` (event-signal.ts): the value
of the inner writable signal, the `activatorAttached` flag, the
`activatorProxy` variable, the mutable `Listener` record (`listening`
flag; the current values of its `target` and `eventName` signals, the
target resolved to the id of its `nativeElement` or `none`), the
`previousListenerTarget` / `previousEventName` variables of the two
change effects, the pending state of the throttled `activateProxySource`
subject (`leading: false, trailing: true` coalesces any number of
`next()` calls into one pending re-attachment), the `effectRef` /
`subscription` updater handles, and two observables of the DOM
environment: the set of `(target, eventName)` pairs the `eventListener`
is currently registered on, and the log of targets on which
`removeEventListener` was invoked (one entry per invocation per event
name).  The `eventListener` stores the event into the value via the
default identity `resultSelector`. -/
structure EvState where
  value : Option Nat
  activatorAttached : Bool
  activatorProxy : Option Activator
  listening : Bool
  target : Option Nat
  eventName : Nat
  previousListenerTarget : Option Nat
  previousEventName : Nat
  pendingReattach : Bool
  effectRef : Option Nat
  subscription : Option Nat
  registrations : List (Nat × Nat)
  removeLog : List Nat
deriving Repr, DecidableEq

/-- `addEventListenerToTarget` (event-signal.ts): when the resolved
target is defined and the listener is not yet listening, registers the
event listener on it for the current event name and sets `listening`. -/
def addEventListenerToTarget (s : EvState) : EvState :=
  match s.target with
  | some t =>
    if s.listening = false then
      { s with registrations := s.registrations ++ [(t, s.eventName)], listening := true }
    else s
  | none => s

/-- `removeEventListenerFromTarget` (event-signal.ts): the target is the
override from `previousListener` if given, else the currently resolved
target; likewise for the event name.  When the target is defined and the
listener is listening, `removeEventListener` is invoked on it (logged)
for the event name, deregistering that pair.  `listening` is reset
unconditionally. -/
def removeEventListenerFromTarget (s : EvState)
    (prevTarget : Option Nat) (prevEventName : Option Nat) : EvState :=
  let target : Option Nat :=
    match prevTarget with
    | some t => some t
    | none => s.target
  let eventName : Nat :=
    match prevEventName with
    | some n => n
    | none => s.eventName
  let s1 :=
    match target with
    | some t =>
      if s.listening = true then
        { s with removeLog := s.removeLog ++ [t],
                 registrations := s.registrations.filter (fun r => r != (t, eventName)) }
      else s
    | none => s
  { s1 with listening := false }

/-- `addOrRemoveEventListener` (event-signal.ts). -/
def addOrRemoveEventListener (activate : Bool) (s : EvState) : EvState :=
  if activate then addEventListenerToTarget s
  else removeEventListenerFromTarget s none none

/-- `terminateUpdaters` (event-signal.ts): destroys the activator effect
when one is held, else unsubscribes the activator subscription when one
is held, clearing the variable. -/
def terminateUpdaters (s : EvState) : EvState :=
  match s.effectRef with
  | some _ => { s with effectRef := none }
  | none =>
    match s.subscription with
    | some _ => { s with subscription := none }
    | none => s

/-- `deactivate` (event-signal.ts): terminates the updaters, removes the
event listener from the current target, and resets `activatorAttached`
and `activatorProxy`.  It never throws. -/
def deactivate (s : EvState) : EvState :=
  let s1 := terminateUpdaters s
  let s2 := removeEventListenerFromTarget s1 none none
  { s2 with activatorAttached := false, activatorProxy := none }

/-- `attachActivator` (event-signal.ts): throws when an activator is
already attached.  Otherwise terminates any previous updaters, records
the activator, and — when the resolved target is defined — attaches
immediately for the literal `true`, creates the add-or-remove effect for
a reactive boolean (its first run is delivered by `activatorEffectRun`),
or subscribes to a boolean stream (emissions delivered by
`activatorStreamEmit`). -/
def attachActivator (s : EvState) (activator : Activator) : Except String EvState :=
  if s.activatorAttached then
    Except.error "Cannot attach another activator! EventSignal is already attached to an activator! Call deactivate first!"
  else
    let s1 := terminateUpdaters s
    let s2 := { s1 with activatorAttached := true, activatorProxy := some activator }
    if s2.target = none then
      Except.ok s2
    else
      match activator with
      | Activator.literalTrue => Except.ok (addEventListenerToTarget s2)
      | Activator.sig id => Except.ok { s2 with effectRef := some id }
      | Activator.stream id => Except.ok { s2 with subscription := some id }

/-- Environment step: the activator effect created for a reactive
boolean activator re-evaluates (first run or a change of signal `id` to
`value`), running `addOrRemoveEventListener` — unless the effect has
been terminated. -/
def activatorEffectRun (s : EvState) (id : Nat) (value : Bool) : EvState :=
  if s.effectRef = some id then addOrRemoveEventListener value s else s

/-- Environment step: the boolean activator stream `id` emits `value`,
running `addOrRemoveEventListener` — unless the subscription has been
terminated. -/
def activatorStreamEmit (s : EvState) (id : Nat) (value : Bool) : EvState :=
  if s.subscription = some id then addOrRemoveEventListener value s else s

/-- The body of `listenerChangeEffectRef` (event-signal.ts), run after
the `target` signal changed: returns immediately when no activator is
attached or the target is unchanged; for a new defined target it removes
the listener from the previous target (when that had a defined native
element) and signals `activateProxySource` (a pending coalesced
re-attachment); for an undefined new target it only marks the listener
as not listening. -/
def listenerChangeEffect (s : EvState) : EvState :=
  let listenerTargetValue := s.target
  if s.activatorAttached = false ∨ s.previousListenerTarget = listenerTargetValue then
    s
  else
    match listenerTargetValue with
    | some _ =>
      let s1 :=
        match s.previousListenerTarget with
        | some prev => removeEventListenerFromTarget s (some prev) none
        | none => s
      { s1 with pendingReattach := true, previousListenerTarget := listenerTargetValue }
    | none =>
      { s with listening := false, previousListenerTarget := listenerTargetValue }

/-- Environment step: the `target` signal changes to `newTarget` and the
listener-change effect re-evaluates. -/
def targetChange (s : EvState) (newTarget : Option Nat) : EvState :=
  listenerChangeEffect { s with target := newTarget }

/-- The body of `eventNameChangeEffectRef` (event-signal.ts), run after
the `eventName` signal changed: when the name differs from the previous
one, removes the listener (for the previous name, on the current
target), signals `activateProxySource`, and records the new name. -/
def eventNameChangeEffect (s : EvState) : EvState :=
  if s.eventName ≠ s.previousEventName then
    let s1 := removeEventListenerFromTarget s none (some s.previousEventName)
    { s1 with pendingReattach := true, previousEventName := s.eventName }
  else s

/-- Environment step: the `eventName` signal changes to `newName` and the
event-name-change effect re-evaluates. -/
def eventNameChange (s : EvState) (newName : Nat) : EvState :=
  eventNameChangeEffect { s with eventName := newName }

/-- Environment step: the trailing edge of the
`throttleTime(0, asyncScheduler, leading: false, trailing: true)`
pipeline on `activateProxySource` fires, delivering the single coalesced
re-attachment: when an activator proxy is recorded, `activatorAttached`
is cleared and `attachActivator` re-invoked with it (which cannot throw
with the flag cleared). -/
def flushReattach (s : EvState) : EvState :=
  if s.pendingReattach = true then
    let s1 := { s with pendingReattach := false }
    match s1.activatorProxy with
    | some proxy =>
      match attachActivator { s1 with activatorAttached := false } proxy with
      | Except.ok s2 => s2
      | Except.error _ => s1
    | none => s1
  else s

/-- Environment step: a DOM event named `n` carrying payload `e` is
dispatched on target `t`.  The `eventListener` runs exactly when it is
registered on `(t, n)`, storing `resultSelector e` (default identity)
into the value. -/
def domEvent (s : EvState) (t n e : Nat) : EvState :=
  if (t, n) ∈ s.registrations then { s with value := some e } else s

/-- The `signalFromEvent` factory (event-signal.ts), reduced to the state
it constructs: the inner signal starts at `options.initialValue`, the
listener starts not listening with the initially resolved target and
event name (also recorded as the previous values of the two change
effects), no updaters, and nothing registered.  When `options.activate`
is `true`, `attachActivator(true)` is called before returning.  (Injector
and `ElementRef` resolution are host-framework wiring: `target0` is the
initially resolved target.) -/
def signalFromEvent (eventName0 : Nat) (target0 : Option Nat)
    (initialValue : Option Nat) (activate : Bool) : Except String EvState :=
  let base : EvState :=
    { value := initialValue, activatorAttached := false, activatorProxy := none,
      listening := false, target := target0, eventName := eventName0,
      previousListenerTarget := target0, previousEventName := eventName0,
      pendingReattach := false, effectRef := none, subscription := none,
      registrations := [], removeLog := [] }
  if activate = true then attachActivator base Activator.literalTrue
  else Except.ok base

/-- Stated from the spec for the refinement claim: construct the event
signal without the `activate` option, then immediately call
`attachActivator(true)` on it. -/
def constructThenAttachActivator (eventName0 : Nat) (target0 : Option Nat)
    (initialValue : Option Nat) : Except String EvState :=
  (signalFromEvent eventName0 target0 initialValue false).bind
    (fun s => attachActivator s Activator.literalTrue)

/-- Well-formedness of an event-signal state: at most one of the two
activator-updater handles is held.  The source guarantees this by
calling `terminateUpdaters` before assigning either handle. -/
def evWf (s : EvState) : Bool :=
  s.effectRef.isNone || s.subscription.isNone

/-- A sample attached, listening event-signal state: activator `true`
attached, listening on target `0` for event name `3`. -/
def evAttachedState : EvState :=
  { value := none, activatorAttached := true, activatorProxy := some Activator.literalTrue,
    listening := true, target := some 0, eventName := 3,
    previousListenerTarget := some 0, previousEventName := 3,
    pendingReattach := false, effectRef := none, subscription := none,
    registrations := [(0, 3)], removeLog := [] }

/-- A sample event-signal state on which no activator was ever
attached. -/
def evFreshState : EvState :=
  { value := none, activatorAttached := false, activatorProxy := none,
    listening := false, target := some 0, eventName := 3,
    previousListenerTarget := some 0, previousEventName := 3,
    pendingReattach := false, effectRef := none, subscription := none,
    registrations := [], removeLog := [] }

/-- The state produced by `signalFromEvent 1 (some 2) none true`. -/
def evActivatedState : EvState :=
  { value := none, activatorAttached := true, activatorProxy := some Activator.literalTrue,
    listening := true, target := some 2, eventName := 1,
    previousListenerTarget := some 2, previousEventName := 1,
    pendingReattach := false, effectRef := none, subscription := none,
    registrations := [(2, 1)], removeLog := [] }

/-- A sample attached, listening state whose activator is the reactive
boolean cell `4` (the add-or-remove effect is held and the listener is
currently on). -/
def evAttachedSigState : EvState :=
  { value := none, activatorAttached := true, activatorProxy := some (Activator.sig 4),
    listening := true, target := some 0, eventName := 3,
    previousListenerTarget := some 0, previousEventName := 3,
    pendingReattach := false, effectRef := some 4, subscription := none,
    registrations := [(0, 3)], removeLog := [] }

/-- A sample attached, listening state whose activator is the boolean
stream `6` (the add-or-remove subscription is held and the listener is
currently on). -/
def evAttachedStreamState : EvState :=
  { value := none, activatorAttached := true, activatorProxy := some (Activator.stream 6),
    listening := true, target := some 0, eventName := 3,
    previousListenerTarget := some 0, previousEventName := 3,
    pendingReattach := false, effectRef := none, subscription := some 6,
    registrations := [(0, 3)], removeLog := [] }

end EventSig

end NgxSignalsPlus

namespace NgxSignalsPlus

/-- Reduction of the `Except` monad bind on a success value. -/
theorem okBind {α β : Type} (a : α) (f : α → Except String β) :
    (Except.ok a >>= f) = f a := rfl

/-- Reduction of the `Except` monad bind on a thrown error. -/
theorem errorBind {α β : Type} (e : String) (f : α → Except String β) :
    ((Except.error e : Except String α) >>= f) = Except.error e := rfl

/-- Reduction of `pure` in the `Except` monad. -/
theorem pureEq {α : Type} (a : α) : (pure a : Except String α) = Except.ok a := rfl

end NgxSignalsPlus

namespace NgxSignalsPlus.Bindable

/-- Every cell constructed by `bindable` is well-formed. -/
theorem wf_bindable (v : Nat) (opts : BindableOptions) (ctx : Bool) (c : Cell)
    (h : bindable v opts ctx = Except.ok c) : wf c = true := by
  unfold bindable assertNoDestroyRefOrInjectorProvidedWithManualCleanup at h
  rcases opts with ⟨d, i, m⟩
  cases d <;> cases i <;> cases m <;> cases ctx <;>
    first
      | exact Except.noConfusion h
      | exact (Except.ok.inj h) ▸ rfl

/-- `bindTo` preserves well-formedness. -/
theorem wf_bindTo (c c' : Cell) (src : Source) (h : wf c = true)
    (h2 : bindTo c src = Except.ok c') : wf c' = true := by
  unfold bindTo at h2
  rcases c with ⟨v, b, e, s, hi, mc, dr⟩
  rcases src with sid | sid <;>
  cases b <;> rcases e with _ | eh <;> rcases s with _ | sh <;>
  cases hi <;> cases mc <;> cases dr <;>
    first
      | exact Except.noConfusion h2
      | exact Bool.noConfusion h
      | exact (Except.ok.inj h2) ▸ rfl

/-- `unbind` preserves well-formedness. -/
theorem wf_unbind (c c' : Cell) (h : wf c = true)
    (h2 : unbind c = Except.ok c') : wf c' = true := by
  unfold unbind at h2
  rcases c with ⟨v, b, e, s, hi, mc, dr⟩
  cases b <;> rcases e with _ | eh <;> rcases s with _ | sh <;>
    first
      | exact Except.noConfusion h2
      | exact Bool.noConfusion h
      | exact (Except.ok.inj h2) ▸ rfl

/-- Every environment step preserves well-formedness. -/
theorem wf_envSteps (c : Cell) (sid v : Nat) (h : wf c = true) :
    wf (streamEmit c sid v) = true ∧ wf (streamComplete c sid) = true ∧
    wf (streamError c sid) = true ∧ wf (signalUpdate c sid v) = true ∧
    wf (destroyTeardown c) = true := by
  rcases c with ⟨v0, b, e, s, hi, mc, dr⟩
  rcases e with _ | e0 <;> rcases s with _ | s0 <;> cases b <;> cases mc <;>
    refine ⟨?_, ?_, ?_, ?_, ?_⟩ <;>
      simp_all [wf, streamEmit, streamComplete, streamError, signalUpdate,
        destroyTeardown] <;>
      split <;> simp_all

end NgxSignalsPlus.Bindable

namespace NgxSignalsPlus.EventSig

/-- `terminateUpdaters` always leaves a well-formed handle state. -/
theorem evWf_terminateUpdaters (s : EvState) : evWf (terminateUpdaters s) = true := by
  rcases s with ⟨val, att, prox, lis, tgt, en, pvt, pen, pnd, eff, sub, regs, rlog⟩
  rcases eff with _ | e0 <;> rcases sub with _ | s0 <;> rfl

/-- `deactivate` always leaves a well-formed handle state. -/
theorem evWf_deactivate (s : EvState) : evWf (deactivate s) = true := by
  rcases s with ⟨val, att, prox, lis, tgt, en, pvt, pen, pnd, eff, sub, regs, rlog⟩
  rcases eff with _ | e0 <;> rcases sub with _ | s0 <;> rcases tgt with _ | t0 <;>
    cases lis <;> rfl

/-- `attachActivator` preserves well-formedness of the handle state. -/
theorem evWf_attachActivator (s s2 : EvState) (a : Activator) (h : evWf s = true)
    (h2 : attachActivator s a = Except.ok s2) : evWf s2 = true := by
  unfold attachActivator terminateUpdaters addEventListenerToTarget at h2
  rcases s with ⟨val, att, prox, lis, tgt, en, pvt, pen, pnd, eff, sub, regs, rlog⟩
  cases att <;> rcases eff with _ | e0 <;> rcases sub with _ | s0 <;>
    rcases tgt with _ | t0 <;> cases lis <;> rcases a with _ | aid | aid <;>
    first
      | exact Except.noConfusion h2
      | exact Bool.noConfusion h
      | exact (Except.ok.inj h2) ▸ rfl

/-- The coalesced re-attachment step preserves well-formedness of the
handle state. -/
theorem evWf_flushReattach (s : EvState) (h : evWf s = true) :
    evWf (flushReattach s) = true := by
  rcases s with ⟨val, att, prox, lis, tgt, en, pvt, pen, pnd, eff, sub, regs, rlog⟩
  cases pnd <;> rcases prox with _ | a
  all_goals try exact h
  all_goals rcases eff with _ | e0 <;> rcases sub with _ | s0 <;>
    rcases tgt with _ | t0 <;> cases lis <;> rcases a with _ | aid | aid <;>
    first
      | exact Bool.noConfusion h
      | rfl

/-- Every state constructed by `signalFromEvent` is well-formed. -/
theorem evWf_signalFromEvent (en : Nat) (tgt : Option Nat) (iv : Option Nat) (act : Bool)
    (s : EvState) (h : signalFromEvent en tgt iv act = Except.ok s) : evWf s = true := by
  unfold signalFromEvent attachActivator terminateUpdaters addEventListenerToTarget at h
  cases act <;> rcases tgt with _ | t0 <;>
    first
      | exact Except.noConfusion h
      | exact (Except.ok.inj h) ▸ rfl

end NgxSignalsPlus.EventSig

namespace NgxSignalsPlus.Bindable

/-- C1: Single active binding.  On a bindable signal whose `bound` flag
is set, every further `bindTo` call — with a stream or a signal source —
throws the already-bound error before any mutation, so the failing call
leaves the state unchanged (the thrown `Except.error` carries no new
state): when the cell holds an open subscription to stream `a`, the held
value is still driven by `a` (an emission of `a` still sets it), the
subscription to `a` is not canceled, and no subscription to the new
source is created; likewise a live effect on signal `a` keeps driving
the value. -/
theorem bindTo_fails_when_already_bound (c : Cell) (a : Nat)
    (hb : c.bound = true) :
    (∀ src : Source,
      bindTo c src =
        Except.error "Signal is already bound to an observable. Call unbind() before binding it again.") ∧
    (c.subscription = some { streamId := a, closed := false } →
      ∀ v : Nat, streamEmit c a v = { c with value := v }) ∧
    (c.effectRef = some { signalId := a, destroyed := false } →
      ∀ v : Nat, signalUpdate c a v = { c with value := v }) := by
  refine ⟨fun src => ?_, fun hs v => ?_, fun he v => ?_⟩
  · unfold bindTo
    rw [hb]
    rfl
  · unfold streamEmit
    rw [hs]
    simp
  · unfold signalUpdate
    rw [he]
    simp

/-- Witness for C1 at the concrete cell `cellBoundToStream5`. -/
theorem bindTo_fails_when_already_bound_witness :
    bindTo cellBoundToStream5 (Source.stream 9) =
      Except.error "Signal is already bound to an observable. Call unbind() before binding it again." ∧
    streamEmit cellBoundToStream5 5 7 = { cellBoundToStream5 with value := 7 } :=
  ⟨(bindTo_fails_when_already_bound cellBoundToStream5 5 rfl).1 (Source.stream 9),
   (bindTo_fails_when_already_bound cellBoundToStream5 5 rfl).2.1 rfl 7⟩

/-- C2: Latest-bind-wins.  Starting from an unbound cell able to bind
streams, the run bindTo(A); A emits x; unbind(); bindTo(B); B emits y;
A emits z leaves the held value equal to y, the latest emission of B:
the emission z delivered by A after its binding was severed by
`unbind` (which canceled the subscription) never reaches the held
cell. -/
theorem latest_bind_wins (c : Cell) (a b x y z : Nat) (hab : a ≠ b)
    (hb : c.bound = false) (he : c.effectRef = none) (hs : c.subscription = none)
    (hcap : (c.manualCleanup || c.destroyRef || c.hasInjector) = true) :
    (do
      let c1 ← bindTo c (Source.stream a)
      let c1a := streamEmit c1 a x
      let c2 ← unbind c1a
      let c3 ← bindTo c2 (Source.stream b)
      let c3y := streamEmit c3 b y
      let c3z := streamEmit c3y a z
      pure c3z.value : Except String Nat) = Except.ok y := by
  rcases c with ⟨v, bo, e, s, hi, mc, dr⟩
  cases hb; cases he; cases hs
  have hba : b ≠ a := Ne.symm hab
  cases mc <;> cases dr <;> cases hi <;>
    simp_all [bindTo, unbind, streamEmit, okBind, errorBind, pureEq, hba]

/-- Witness for C2 at the concrete cell `cellFresh`, streams 10 and 11,
emissions 7, 8, 9. -/
theorem latest_bind_wins_witness :
    (do
      let c1 ← bindTo cellFresh (Source.stream 10)
      let c1a := streamEmit c1 10 7
      let c2 ← unbind c1a
      let c3 ← bindTo c2 (Source.stream 11)
      let c3y := streamEmit c3 11 8
      let c3z := streamEmit c3y 10 9
      pure c3z.value : Except String Nat) = Except.ok 8 :=
  latest_bind_wins cellFresh 10 11 7 8 9 (by decide) rfl rfl rfl rfl

/-- C3: On every well-formed cell, `unbind` succeeds exactly when the
cell is currently bound — it throws if and only if the cell is Unbound
(never bound, or already unbound) — and on success it cancels the single
active subscription or derived computation (clearing the handle
variables) and returns the cell to the Unbound state with its held value
intact. -/
theorem unbind_ok_iff_bound (c : Cell) (hwf : wf c = true) :
    ((unbind c).isOk = c.bound) ∧
    (∀ c', unbind c = Except.ok c' →
      c'.bound = false ∧ c'.effectRef = none ∧ c'.subscription = none ∧
      c'.value = c.value) := by
  rcases c with ⟨v, b, e, s, hi, mc, dr⟩
  cases b <;> rcases e with _ | eh <;> rcases s with _ | sh <;>
    first
      | exact Bool.noConfusion hwf
      | exact ⟨rfl, fun c' h2 => Except.noConfusion h2⟩
      | exact ⟨rfl, fun c' h2 => (Except.ok.inj h2) ▸ ⟨rfl, rfl, rfl, rfl⟩⟩

/-- Witness for C3 at the concrete cell `cellBoundToStream5`. -/
theorem unbind_ok_iff_bound_witness :
    (unbind cellBoundToStream5).isOk = cellBoundToStream5.bound ∧
    (cellAfterUnbind.bound = false ∧ cellAfterUnbind.effectRef = none ∧
      cellAfterUnbind.subscription = none ∧
      cellAfterUnbind.value = cellBoundToStream5.value) :=
  ⟨(unbind_ok_iff_bound cellBoundToStream5 rfl).1,
   (unbind_ok_iff_bound cellBoundToStream5 rfl).2 cellAfterUnbind rfl⟩

/-- C4 counterexample: the claim says that after the bound stream
errors, the signal enters an Unbound-equivalent state and a subsequent
`bindTo` succeeds without an intervening `unbind()`.  On the code this is
false: a cell created with manual cleanup, bound to stream 0, whose
stream then errors, still rejects `bindTo` of stream 1 with the
already-bound error (the `bound` flag is not reset by a stream error) —
even though construction and the first bind succeeded. -/
theorem upstream_error_recovery_counterexample :
    (do
      let c ← bindable 0 { destroyRef := false, injector := false, manualCleanup := true } false
      bindTo c (Source.stream 0) : Except String Cell).isOk = true ∧
    (do
      let c ← bindable 0 { destroyRef := false, injector := false, manualCleanup := true } false
      let c1 ← bindTo c (Source.stream 0)
      let c1e := streamError c1 0
      bindTo c1e (Source.stream 1) : Except String Cell)
      = Except.error "Signal is already bound to an observable. Call unbind() before binding it again." :=
  ⟨rfl, rfl⟩

/-- C4 (amended): when the bound stream errors, that binding is terminal
— the subscription closes and later emissions of the stream no longer
change the held value — but the signal still counts as bound: a
subsequent `bindTo` throws until `unbind()` is called; `unbind()` itself
succeeds (unsubscribing the already-terminated subscription is a safe
no-op), returns the signal to Unbound, and only then does a new `bindTo`
succeed. -/
theorem upstream_error_terminal_but_still_bound (c : Cell) (a b : Nat)
    (hb : c.bound = true) (he : c.effectRef = none)
    (hs : c.subscription = some { streamId := a, closed := false })
    (hcap : (c.manualCleanup || c.destroyRef || c.hasInjector) = true) :
    ((streamError c a).bound = true) ∧
    (∀ w, (streamEmit (streamError c a) a w).value = c.value) ∧
    ((bindTo (streamError c a) (Source.stream b)).isOk = false) ∧
    (∃ c2, unbind (streamError c a) = Except.ok c2 ∧ c2.bound = false ∧
      (bindTo c2 (Source.stream b)).isOk = true) := by
  rcases c with ⟨v, bo, e, s, hi, mc, dr⟩
  cases hb; cases he; cases hs
  cases mc <;> cases dr <;> cases hi <;>
    simp_all [streamError, streamEmit, bindTo, unbind, Except.isOk, Except.toBool]

/-- Witness for the amended C4 at the concrete cell
`cellBoundToStream5`. -/
theorem upstream_error_terminal_witness :
    (streamError cellBoundToStream5 5).bound = true ∧
    (streamEmit (streamError cellBoundToStream5 5) 5 7).value = cellBoundToStream5.value ∧
    (bindTo (streamError cellBoundToStream5 5) (Source.stream 9)).isOk = false ∧
    (∃ c2, unbind (streamError cellBoundToStream5 5) = Except.ok c2 ∧ c2.bound = false ∧
      (bindTo c2 (Source.stream 9)).isOk = true) :=
  ⟨(upstream_error_terminal_but_still_bound cellBoundToStream5 5 9 rfl rfl rfl rfl).1,
   (upstream_error_terminal_but_still_bound cellBoundToStream5 5 9 rfl rfl rfl rfl).2.1 7,
   (upstream_error_terminal_but_still_bound cellBoundToStream5 5 9 rfl rfl rfl rfl).2.2.1,
   (upstream_error_terminal_but_still_bound cellBoundToStream5 5 9 rfl rfl rfl rfl).2.2.2⟩

/-- C10: when the bound stream terminates on its own (for example via a
take or takeUntil operator completing it), the signal still counts as
bound: the subscription handle is retained (now closed), later emissions
no longer change the held value, and `unbind()` does not throw —
unsubscribing the already-closed subscription is a safe no-op — and it
alone returns the signal to Unbound. -/
theorem completed_stream_still_bound (c : Cell) (a : Nat)
    (hb : c.bound = true) (he : c.effectRef = none)
    (hs : c.subscription = some { streamId := a, closed := false }) :
    ((streamComplete c a).bound = true) ∧
    ((streamComplete c a).subscription = some { streamId := a, closed := true }) ∧
    (∀ w, (streamEmit (streamComplete c a) a w).value = c.value) ∧
    (∃ c2, unbind (streamComplete c a) = Except.ok c2 ∧ c2.bound = false ∧
      c2.subscription = none) := by
  rcases c with ⟨v, bo, e, s, hi, mc, dr⟩
  cases hb; cases he; cases hs
  simp_all [streamComplete, streamEmit, unbind]

/-- Witness for C10 at the concrete cell `cellBoundToStream5`. -/
theorem completed_stream_still_bound_witness :
    (streamComplete cellBoundToStream5 5).bound = true ∧
    (streamComplete cellBoundToStream5 5).subscription = some { streamId := 5, closed := true } ∧
    (streamEmit (streamComplete cellBoundToStream5 5) 5 7).value = cellBoundToStream5.value ∧
    (∃ c2, unbind (streamComplete cellBoundToStream5 5) = Except.ok c2 ∧ c2.bound = false ∧
      c2.subscription = none) :=
  ⟨(completed_stream_still_bound cellBoundToStream5 5 rfl rfl rfl).1,
   (completed_stream_still_bound cellBoundToStream5 5 rfl rfl rfl).2.1,
   (completed_stream_still_bound cellBoundToStream5 5 rfl rfl rfl).2.2.1 7,
   (completed_stream_still_bound cellBoundToStream5 5 rfl rfl rfl).2.2.2⟩

/-- C5 counterexample: the claim says `bindTo` with a signal source
succeeds whenever an injector is available (explicit or ambient).  On the
code this is false: a cell constructed with BOTH an explicit `destroyRef`
and an explicit `injector` constructs successfully (only `manualCleanup`
conflicts with them), yet `bindTo` of a signal throws — providing the
`destroyRef` leaves the internal injector variable unassigned even though
an explicit injector was supplied. -/
theorem bindTo_signal_despite_injector_counterexample :
    (bindable 0 { destroyRef := true, injector := true, manualCleanup := false } true).isOk = true ∧
    (do
      let c ← bindable 0 { destroyRef := true, injector := true, manualCleanup := false } true
      bindTo c (Source.sig 3) : Except String Cell)
      = Except.error "Tried to bind the signal to a signal without a provided Injector." :=
  ⟨rfl, rfl⟩

/-- C5 (amended): on every successfully constructed cell, `bindTo` with
a signal source succeeds exactly when the internal injector is defined,
i.e. when neither `manualCleanup` nor a `destroyRef` was supplied at
construction and an injector was available (explicit option or ambient
injection context); in particular it throws for `manualCleanup = true`
and whenever a `destroyRef` was supplied — even together with an explicit
injector.  On success it creates a derived computation that sets the held
value on every change of the source signal. -/
theorem bindTo_signal_requires_live_injector (v sid : Nat) (opts : BindableOptions)
    (inCtx : Bool) (c : Cell) (hc : bindable v opts inCtx = Except.ok c) :
    ((bindTo c (Source.sig sid)).isOk =
      (!opts.manualCleanup && !opts.destroyRef && (opts.injector || inCtx))) ∧
    (∀ c', bindTo c (Source.sig sid) = Except.ok c' →
      ∀ w, (signalUpdate c' sid w).value = w) := by
  rcases opts with ⟨d, i, m⟩
  cases d <;> cases i <;> cases m <;> cases inCtx <;>
    try exact Except.noConfusion hc
  all_goals cases Except.ok.inj hc
  all_goals refine ⟨rfl, fun c' h2 => ?_⟩
  all_goals try exact Except.noConfusion h2
  all_goals cases Except.ok.inj h2
  all_goals intro w
  all_goals simp [signalUpdate, Except.isOk, Except.toBool]

/-- Witness for the amended C5 at the concrete cell `cellWithInjector`
(explicit injector, no destroyRef, no manual cleanup). -/
theorem bindTo_signal_requires_live_injector_witness :
    (bindTo cellWithInjector (Source.sig 4)).isOk = true ∧
    (signalUpdate { cellWithInjector with
        effectRef := some { signalId := 4, destroyed := false }, bound := true } 4 6).value = 6 :=
  ⟨(bindTo_signal_requires_live_injector 0 4
      { destroyRef := false, injector := true, manualCleanup := false } false cellWithInjector rfl).1,
   (bindTo_signal_requires_live_injector 0 4
      { destroyRef := false, injector := true, manualCleanup := false } false cellWithInjector rfl).2
     { cellWithInjector with effectRef := some { signalId := 4, destroyed := false }, bound := true }
     rfl 6⟩

end NgxSignalsPlus.Bindable

namespace NgxSignalsPlus.EventSig

/-- C6: `attachActivator` on an event signal whose activator flag is set
(an activator is attached and `deactivate()` has not intervened) throws
the already-attached error.  The throw happens before any mutation, so
the failing call leaves the event signal unchanged (the thrown
`Except.error` carries no new state): no listener is added or removed
and the previous activator stays in effect. -/
theorem attachActivator_fails_when_attached (s : EvState) (a : Activator)
    (h : s.activatorAttached = true) :
    attachActivator s a =
      Except.error "Cannot attach another activator! EventSignal is already attached to an activator! Call deactivate first!" := by
  unfold attachActivator
  rw [h]
  rfl

/-- Witness for C6 at the concrete state `evAttachedState`. -/
theorem attachActivator_fails_when_attached_witness :
    attachActivator evAttachedState (Activator.sig 1) =
      Except.error "Cannot attach another activator! EventSignal is already attached to an activator! Call deactivate first!" :=
  attachActivator_fails_when_attached evAttachedState (Activator.sig 1) rfl

/-- C7: `deactivate` never throws (it is a total function); on every
state holding at most one updater handle it cancels whatever
subscription or derived computation implements the current activator
(both handle variables end up cleared), removes the event listener from
the current target when presently attached (the registration
disappears), and resets the activator state to not attached; it is
idempotent, and on a state where no activator was ever attached it is a
complete no-op. -/
theorem deactivate_resets_and_idempotent (s : EvState)
    (hone : s.effectRef = none ∨ s.subscription = none) :
    (deactivate s).activatorAttached = false ∧
    (deactivate s).activatorProxy = none ∧
    (deactivate s).effectRef = none ∧
    (deactivate s).subscription = none ∧
    (deactivate s).listening = false ∧
    deactivate (deactivate s) = deactivate s ∧
    (∀ t, s.listening = true → s.target = some t → s.registrations = [(t, s.eventName)] →
      (deactivate s).registrations = []) ∧
    (s.activatorAttached = false → s.activatorProxy = none → s.effectRef = none →
      s.subscription = none → s.listening = false → deactivate s = s) := by
  rcases s with ⟨val, att, prox, lis, tgt, en, pvt, pen, pnd, eff, sub, regs, rlog⟩
  rcases eff with _ | eid <;> rcases sub with _ | sid <;> rcases tgt with _ | t0 <;> cases lis <;>
    simp_all [deactivate, terminateUpdaters, removeEventListenerFromTarget]

/-- Witness for C7 at the concrete states `evAttachedState` and
`evFreshState`. -/
theorem deactivate_resets_and_idempotent_witness :
    (deactivate evAttachedState).activatorAttached = false ∧
    (deactivate evAttachedState).activatorProxy = none ∧
    (deactivate evAttachedState).effectRef = none ∧
    (deactivate evAttachedState).subscription = none ∧
    (deactivate evAttachedState).listening = false ∧
    deactivate (deactivate evAttachedState) = deactivate evAttachedState ∧
    (deactivate evAttachedState).registrations = [] ∧
    deactivate evFreshState = evFreshState :=
  ⟨(deactivate_resets_and_idempotent evAttachedState (Or.inl rfl)).1,
   (deactivate_resets_and_idempotent evAttachedState (Or.inl rfl)).2.1,
   (deactivate_resets_and_idempotent evAttachedState (Or.inl rfl)).2.2.1,
   (deactivate_resets_and_idempotent evAttachedState (Or.inl rfl)).2.2.2.1,
   (deactivate_resets_and_idempotent evAttachedState (Or.inl rfl)).2.2.2.2.1,
   (deactivate_resets_and_idempotent evAttachedState (Or.inl rfl)).2.2.2.2.2.1,
   (deactivate_resets_and_idempotent evAttachedState (Or.inl rfl)).2.2.2.2.2.2.1 0 rfl rfl rfl,
   (deactivate_resets_and_idempotent evFreshState (Or.inl rfl)).2.2.2.2.2.2.2 rfl rfl rfl rfl rfl⟩

/-- C8: Dynamic retarget without duplicate delivery.  On an attached,
listening event signal with any of the three activator kinds attached
(the literal `true`, a reactive boolean cell, or a boolean stream) and
the listener registered on target `t` for the current event name,
changing the target to a new defined target `t2` and the event name to
`n2` in the same cycle, followed by the single coalesced re-attachment,
invokes `removeEventListener` on the old target exactly once (the
removal log gains exactly one entry for `t` — the event-name change
finds the listener already not listening and removes nothing); the
listener is never registered on two targets at once (the registration
set is empty between removal and re-attach, and afterwards holds at most
the new pair); and subsequent events on the old target never affect the
signal.  For the literal `true` the flush re-registers on the new target
immediately; for a reactive-cell or stream activator the flush installs
the fresh effect or subscription and the registration on the new target
completes at its next run or emission delivering `true`, with the
removal count on the old target still exactly one and old-target events
still inert. -/
theorem retarget_removes_old_listener_once (s : EvState) (a : Activator) (t t2 n2 : Nat)
    (hatt : s.activatorAttached = true)
    (hproxy : s.activatorProxy = some a)
    (hlisten : s.listening = true)
    (htgt : s.target = some t)
    (hprev : s.previousListenerTarget = some t)
    (hpen : s.previousEventName = s.eventName)
    (hreg : s.registrations = [(t, s.eventName)])
    (ht2 : t2 ≠ t) (hn2 : n2 ≠ s.eventName) :
    ((targetChange s (some t2)).registrations = []) ∧
    ((eventNameChange (targetChange s (some t2)) n2).registrations = []) ∧
    ((flushReattach (eventNameChange (targetChange s (some t2)) n2)).removeLog.count t
        = s.removeLog.count t + 1) ∧
    (∀ r ∈ (flushReattach (eventNameChange (targetChange s (some t2)) n2)).registrations,
        r = (t2, n2)) ∧
    (∀ n e, domEvent (flushReattach (eventNameChange (targetChange s (some t2)) n2)) t n e
        = flushReattach (eventNameChange (targetChange s (some t2)) n2)) ∧
    (a = Activator.literalTrue →
      (flushReattach (eventNameChange (targetChange s (some t2)) n2)).registrations = [(t2, n2)] ∧
      (flushReattach (eventNameChange (targetChange s (some t2)) n2)).listening = true) ∧
    (∀ id, a = Activator.sig id →
      (flushReattach (eventNameChange (targetChange s (some t2)) n2)).effectRef = some id ∧
      (activatorEffectRun (flushReattach (eventNameChange (targetChange s (some t2)) n2)) id true).registrations = [(t2, n2)] ∧
      (activatorEffectRun (flushReattach (eventNameChange (targetChange s (some t2)) n2)) id true).listening = true ∧
      (activatorEffectRun (flushReattach (eventNameChange (targetChange s (some t2)) n2)) id true).removeLog.count t
          = s.removeLog.count t + 1 ∧
      (∀ n e, domEvent (activatorEffectRun (flushReattach (eventNameChange (targetChange s (some t2)) n2)) id true) t n e
          = activatorEffectRun (flushReattach (eventNameChange (targetChange s (some t2)) n2)) id true)) ∧
    (∀ id, a = Activator.stream id →
      (flushReattach (eventNameChange (targetChange s (some t2)) n2)).subscription = some id ∧
      (activatorStreamEmit (flushReattach (eventNameChange (targetChange s (some t2)) n2)) id true).registrations = [(t2, n2)] ∧
      (activatorStreamEmit (flushReattach (eventNameChange (targetChange s (some t2)) n2)) id true).listening = true ∧
      (activatorStreamEmit (flushReattach (eventNameChange (targetChange s (some t2)) n2)) id true).removeLog.count t
          = s.removeLog.count t + 1 ∧
      (∀ n e, domEvent (activatorStreamEmit (flushReattach (eventNameChange (targetChange s (some t2)) n2)) id true) t n e
          = activatorStreamEmit (flushReattach (eventNameChange (targetChange s (some t2)) n2)) id true)) := by
  have h2t : t ≠ t2 := Ne.symm ht2
  obtain ⟨val, att, prox, lis, tgt, en, pvt, pen, pnd, eff, sub, regs, rlog⟩ := s
  simp only at hatt hproxy hlisten htgt hprev hpen hreg
  subst hatt; subst hproxy; subst hlisten; subst htgt; subst hprev; subst hpen; subst hreg
  rcases a with _ | aid | aid <;> rcases eff with _ | e0 <;> rcases sub with _ | s0 <;>
    simp_all [targetChange, listenerChangeEffect, removeEventListenerFromTarget,
      eventNameChange, eventNameChangeEffect, flushReattach, attachActivator,
      terminateUpdaters, addEventListenerToTarget, activatorEffectRun,
      activatorStreamEmit, addOrRemoveEventListener, domEvent,
      List.count_append, ht2, hn2, h2t]

/-- Witness for C8, applying the theorem for each activator kind: the
literal `true` at `evAttachedState`, the reactive boolean cell `4` at
`evAttachedSigState`, and the boolean stream `6` at
`evAttachedStreamState` (old target 0, new target 1, old event name 3,
new event name 2). -/
theorem retarget_removes_old_listener_once_witness :
    (targetChange evAttachedState (some 1)).registrations = [] ∧
    (flushReattach (eventNameChange (targetChange evAttachedState (some 1)) 2)).removeLog.count 0
      = evAttachedState.removeLog.count 0 + 1 ∧
    (flushReattach (eventNameChange (targetChange evAttachedState (some 1)) 2)).registrations = [(1, 2)] ∧
    domEvent (flushReattach (eventNameChange (targetChange evAttachedState (some 1)) 2)) 0 3 99
      = flushReattach (eventNameChange (targetChange evAttachedState (some 1)) 2) ∧
    (flushReattach (eventNameChange (targetChange evAttachedSigState (some 1)) 2)).removeLog.count 0
      = evAttachedSigState.removeLog.count 0 + 1 ∧
    (activatorEffectRun (flushReattach (eventNameChange (targetChange evAttachedSigState (some 1)) 2)) 4 true).registrations = [(1, 2)] ∧
    (flushReattach (eventNameChange (targetChange evAttachedStreamState (some 1)) 2)).removeLog.count 0
      = evAttachedStreamState.removeLog.count 0 + 1 ∧
    (activatorStreamEmit (flushReattach (eventNameChange (targetChange evAttachedStreamState (some 1)) 2)) 6 true).registrations = [(1, 2)] :=
  ⟨(retarget_removes_old_listener_once evAttachedState Activator.literalTrue 0 1 2
      rfl rfl rfl rfl rfl rfl rfl (by decide) (by decide)).1,
   (retarget_removes_old_listener_once evAttachedState Activator.literalTrue 0 1 2
      rfl rfl rfl rfl rfl rfl rfl (by decide) (by decide)).2.2.1,
   ((retarget_removes_old_listener_once evAttachedState Activator.literalTrue 0 1 2
      rfl rfl rfl rfl rfl rfl rfl (by decide) (by decide)).2.2.2.2.2.1 rfl).1,
   (retarget_removes_old_listener_once evAttachedState Activator.literalTrue 0 1 2
      rfl rfl rfl rfl rfl rfl rfl (by decide) (by decide)).2.2.2.2.1 3 99,
   (retarget_removes_old_listener_once evAttachedSigState (Activator.sig 4) 0 1 2
      rfl rfl rfl rfl rfl rfl rfl (by decide) (by decide)).2.2.1,
   ((retarget_removes_old_listener_once evAttachedSigState (Activator.sig 4) 0 1 2
      rfl rfl rfl rfl rfl rfl rfl (by decide) (by decide)).2.2.2.2.2.2.1 4 rfl).2.1,
   (retarget_removes_old_listener_once evAttachedStreamState (Activator.stream 6) 0 1 2
      rfl rfl rfl rfl rfl rfl rfl (by decide) (by decide)).2.2.1,
   ((retarget_removes_old_listener_once evAttachedStreamState (Activator.stream 6) 0 1 2
      rfl rfl rfl rfl rfl rfl rfl (by decide) (by decide)).2.2.2.2.2.2.2 6 rfl).2.1⟩

/-- C9: constructing an event signal with the option `activate = true`
behaves exactly like constructing it without that option and immediately
calling `attachActivator(true)` — the two constructions yield the same
state.  In that state the activator is attached, the listener is attached
right away whenever the target is resolved, every later `attachActivator`
call throws the already-attached error, and after `deactivate()` an
`attachActivator` call succeeds again. -/
theorem activate_option_equals_immediate_attach (en : Nat) (tgt : Option Nat) (iv : Option Nat) :
    signalFromEvent en tgt iv true = constructThenAttachActivator en tgt iv ∧
    (∀ s, signalFromEvent en tgt iv true = Except.ok s →
      s.activatorAttached = true ∧
      (tgt ≠ none → s.listening = true) ∧
      (∀ a, attachActivator s a =
        Except.error "Cannot attach another activator! EventSignal is already attached to an activator! Call deactivate first!") ∧
      (∀ a, (attachActivator (deactivate s) a).isOk = true)) := by
  constructor
  · rfl
  · intro s hs
    rcases tgt with _ | t0
    · cases Except.ok.inj hs
      refine ⟨rfl, fun h => absurd rfl h, fun a => rfl, fun a => ?_⟩
      cases a <;> rfl
    · cases Except.ok.inj hs
      refine ⟨rfl, fun h => rfl, fun a => rfl, fun a => ?_⟩
      cases a <;> rfl

/-- Witness for C9 at event name 1, target 2, no initial value; the
constructed state is `evActivatedState`. -/
theorem activate_option_equals_immediate_attach_witness :
    signalFromEvent 1 (some 2) none true = constructThenAttachActivator 1 (some 2) none ∧
    evActivatedState.activatorAttached = true ∧
    evActivatedState.listening = true ∧
    attachActivator evActivatedState (Activator.sig 7) =
      Except.error "Cannot attach another activator! EventSignal is already attached to an activator! Call deactivate first!" ∧
    (attachActivator (deactivate evActivatedState) (Activator.sig 7)).isOk = true :=
  ⟨(activate_option_equals_immediate_attach 1 (some 2) none).1,
   ((activate_option_equals_immediate_attach 1 (some 2) none).2 evActivatedState rfl).1,
   ((activate_option_equals_immediate_attach 1 (some 2) none).2 evActivatedState rfl).2.1 (by decide),
   ((activate_option_equals_immediate_attach 1 (some 2) none).2 evActivatedState rfl).2.2.1 (Activator.sig 7),
   ((activate_option_equals_immediate_attach 1 (some 2) none).2 evActivatedState rfl).2.2.2 (Activator.sig 7)⟩

end NgxSignalsPlus.EventSig
